import Mathlib

/-!
Verification of the real-time duplex audio/session engine of the medical
voice-agent repository.

The definitions below are a shallow embedding of the Python sources:
* `AudioProcessor.*` embeds the class `AudioProcessor` (`voice_ui.py`,
  identical copies in `voice_medassist.py` and `voice_ui_0n.py`).
* `padB64`, `b64decodeChars`, `decodeDelta` embed the inbound audio-delta
  decode path (`pad = -len(b64) % 4`, `base64.b64decode`,
  `np.frombuffer(..., dtype=np.int16)`).
* `handleLoopT` / `handleResponseT` embed `ConversationSystem.handle_response`
  (`voice_medassist.py`, the copy with `call_active`), the canonical
  response-cycle loop; `setupLoop` embeds the `session.created` / `error`
  wait loop of `setup_websocket_session`.

Strings are modelled as `List Char`; PCM frames as `List Int` of signed
16-bit sample values; byte strings as `List Nat` of byte values.
-/

/-- State of `AudioProcessor` (`voice_ui.py` lines 11-21).  The float
constant `vad_threshold = 0.015` is kept implicit in `frameAboveThreshold`
below, rendered exactly as the rational 3/200. -/
structure AudioProcState where
  sample_rate : Nat
  speech_frames : Nat
  silence_frames : Nat
  min_speech_duration : Nat
  max_silence_duration : Nat
  buffer : List Nat
  is_speaking : Bool
  speech_detected : Bool
  deriving DecidableEq

namespace AudioProcessor

/-- `AudioProcessor.__init__(sample_rate)`: `int(0.3 * sample_rate)` and
`int(0.8 * sample_rate)` rendered exactly; at the default rate 24000 these
are 7200 and 19200, matching the float computation. -/
def init (sample_rate : Nat) : AudioProcState :=
  { sample_rate := sample_rate
    speech_frames := 0
    silence_frames := 0
    min_speech_duration := 3 * sample_rate / 10
    max_silence_duration := 8 * sample_rate / 10
    buffer := []
    is_speaking := false
    speech_detected := false }

/-- `np.abs(indata).mean() / 32768.0 > 0.015`, cleared of denominators:
mean(|x|)/32768 > 3/200  iff  200 * sum(|x|) > 3 * 32768 * len.
For the empty frame numpy's mean is NaN and the comparison is false,
matching `0 > 0` here. -/
def frameAboveThreshold (indata : List Int) : Bool :=
  decide (200 * (indata.map Int.natAbs).sum > 3 * 32768 * indata.length)

/-- One signed 16-bit sample as its two little-endian bytes
(`indata.tobytes()` layout). -/
def int16Bytes (x : Int) : List Nat :=
  let u := ((x % 65536 : Int)).toNat
  [u % 256, u / 256]

/-- `indata.tobytes()`: the frame as raw little-endian PCM16 bytes. -/
def frameBytes (indata : List Int) : List Nat :=
  (indata.map int16Bytes).flatten

/-- `AudioProcessor.process_audio` (`voice_ui.py` lines 23-35). -/
def process_audio (s : AudioProcState) (indata : List Int) : AudioProcState :=
  if s.is_speaking then s
  else if frameAboveThreshold indata then
    { s with speech_detected := true
             speech_frames := s.speech_frames + indata.length
             silence_frames := 0
             buffer := s.buffer ++ frameBytes indata }
  else if s.speech_detected then
    let silence' := s.silence_frames + indata.length
    if silence' < s.max_silence_duration then
      { s with silence_frames := silence'
               buffer := s.buffer ++ frameBytes indata }
    else
      { s with silence_frames := silence' }
  else s

/-- `AudioProcessor.should_process` (`voice_ui.py` lines 37-42). -/
def should_process (s : AudioProcState) : Bool :=
  s.speech_detected
    && decide (s.speech_frames ≥ s.min_speech_duration)
    && decide (s.silence_frames ≥ s.max_silence_duration)

/-- `AudioProcessor.reset` (`voice_ui.py` lines 44-50): returns the drained
bytes together with the reset state. -/
def reset (s : AudioProcState) : List Nat × AudioProcState :=
  ( s.buffer
  , { s with speech_frames := 0
             silence_frames := 0
             speech_detected := false
             buffer := [] } )

/-- Feed a sequence of capture-callback frames through the VAD. -/
def runVAD (s : AudioProcState) (frames : List (List Int)) : AudioProcState :=
  frames.foldl process_audio s

/-- Total number of samples contained in the above-threshold frames of a
sequence (the measure used by the speech-duration floor claim). -/
def aboveSamples : List (List Int) → Nat
  | [] => 0
  | f :: fs => (if frameAboveThreshold f then f.length else 0) + aboveSamples fs

end AudioProcessor

/-! ### String helpers (Python `str` operations on `List Char`) -/

/-- Python `str.lower()` restricted to the ASCII range actually used. -/
def lowerChars (cs : List Char) : List Char :=
  cs.map Char.toLower

/-- Whether the first list is an initial segment of the second. -/
def isPrefixChars : List Char → List Char → Bool
  | [], _ => true
  | _ :: _, [] => false
  | a :: as, b :: bs => a = b && isPrefixChars as bs

/-- Python substring membership `needle in hay`. -/
def containsSub (needle : List Char) : List Char → Bool
  | [] => needle.isEmpty
  | c :: t => isPrefixChars needle (c :: t) || containsSub needle t

/-- Python `str.strip()` (whitespace on both ends). -/
def pyStrip (cs : List Char) : List Char :=
  ((cs.dropWhile Char.isWhitespace).reverse.dropWhile Char.isWhitespace).reverse

/-- `ConversationSystem.check_goodbye` (`voice_medassist.py` lines 407-409). -/
def checkGoodbye (text : List Char) : Bool :=
  let l := lowerChars text
  containsSub "bye".data l || containsSub "goodbye".data l
    || containsSub "good bye".data l

/-- `ConversationSystem.check_all_questions_answered`
(`voice_medassist.py` lines 411-416). -/
def allQuestionsAnswered (text : List Char) : Bool :=
  let l := lowerChars text
  containsSub "all your questions".data l && containsSub "answered".data l

/-! ### Base64 / PCM16 decode path

Embeds `pad = -len(audio_b64) % 4; audio_b64 += "=" * pad`, then
`np.frombuffer(base64.b64decode(audio_b64), dtype=np.int16)`.
`base64.b64decode` runs with `validate=False`: characters outside the
base64 alphabet are discarded before decoding; decoding fails (raises)
when the kept length is not a multiple of 4 or when the number of data
characters is congruent to 1 mod 4; `np.frombuffer` fails when the byte
count is odd. -/

/-- The value of a standard-alphabet base64 character, `none` otherwise. -/
def b64Index (c : Char) : Option Nat :=
  if 'A' ≤ c ∧ c ≤ 'Z' then some (c.toNat - 65)
  else if 'a' ≤ c ∧ c ≤ 'z' then some (c.toNat - 97 + 26)
  else if '0' ≤ c ∧ c ≤ '9' then some (c.toNat - 48 + 52)
  else if c = '+' then some 62
  else if c = '/' then some 63
  else none

/-- The defensive padding step of the delta handler (`voice_ui.py` lines
247-249): `pad = -len(audio_b64) % 4; if pad: audio_b64 += "=" * pad`.
Python `%` on a negative dividend and positive divisor is `Int.emod`. -/
def padB64 (cs : List Char) : List Char :=
  let pad := ((-(cs.length : Int)) % 4).toNat
  if pad ≠ 0 then cs ++ List.replicate pad '=' else cs

/-- Decode a run of base64 sextet values into bytes (groups of four give
three bytes; a final group of two or three gives one or two bytes). -/
def decodeGroups : List Nat → List Nat
  | a :: b :: c :: d :: rest =>
    (a * 4 + b / 16) :: ((b % 16) * 16 + c / 4) :: ((c % 4) * 64 + d)
      :: decodeGroups rest
  | [a, b] => [a * 4 + b / 16]
  | [a, b, c] => [a * 4 + b / 16, (b % 16) * 16 + c / 4]
  | _ => []

/-- `base64.b64decode` with its default lenient validation, as described
above; `none` models the raised `binascii.Error`. -/
def b64decodeChars (cs : List Char) : Option (List Nat) :=
  let kept := cs.filter (fun c => (b64Index c).isSome || c = '=')
  if kept.length % 4 ≠ 0 then none
  else
    let dataVals := kept.filterMap b64Index
    if dataVals.length % 4 = 1 then none
    else some (decodeGroups dataVals)

/-- `np.frombuffer(bytes, dtype=np.int16)`: little-endian byte pairs as
signed 16-bit values. -/
def bytesToInt16 : List Nat → List Int
  | lo :: hi :: rest =>
    (let u := lo + 256 * hi
     if u < 32768 then (u : Int) else (u : Int) - 65536) :: bytesToInt16 rest
  | _ => []

/-- The whole `try` body of the delta handler: base64 decode followed by
the int16 reinterpretation; `none` models the caught exception. -/
def decodeDelta (cs : List Char) : Option (List Int) :=
  match b64decodeChars cs with
  | none => none
  | some bytes =>
    if bytes.length % 2 = 0 then some (bytesToInt16 bytes) else none


/-! ### The conversation engine

`handleLoopT` embeds the body of `ConversationSystem.handle_response`
(`voice_medassist.py` lines 418-490, the copy with `call_active`): the
loop checks `call_active` at its top, receives the next inbound message
and dispatches on its `type` string; `response.done` breaks the loop.
An inbound message whose type matches no branch (notably `error`) falls
through the `elif` chain and is ignored.  `handleResponseT` adds the
`is_speaking = True` entry assignment and the `finally` that clears it.
The result also carries the value of the capture gate observed at each
message receipt (the value the concurrently running audio callback reads),
and the suffix of inbound messages left unconsumed when the loop exits. -/

/-- Inbound server messages, tagged by their `type` string.  `fault` is a
modelling device for `ws.recv()` raising (a transport fault): the
exception propagates out of the loop through the `finally`. -/
inductive InMsg where
  | sessionCreated
  | audioDelta (delta : List Char)
  | textDelta (text : List Char)
  | textDone (text : List Char)
  | itemCreated (role : List Char) (text : List Char)
  | responseDone
  | errorEv
  | fault
  deriving DecidableEq

/-- Engine state: the `AudioProcessor` (whose `is_speaking` is the
`CaptureGate`), the `call_active` flag, the PCM chunks written to the
output stream, and a count of logged audio-decode errors. -/
structure EngineState where
  audio : AudioProcState
  callActive : Bool
  played : List (List Int)
  decodeErrors : Nat
  deriving DecidableEq

/-- How the response-handling loop exited. `starved` means the inbound
message list ran out with the loop still blocked in `ws.recv()` (the loop
has not exited, so the `finally` has not run). -/
inductive HandleOutcome where
  | completed
  | endedInactive
  | faulted
  | starved
  deriving DecidableEq

/-- Result of running the response loop: final state, exit mode, the
unconsumed inbound messages, and the gate value observed at each receipt. -/
structure HandleResult where
  state : EngineState
  outcome : HandleOutcome
  remaining : List InMsg
  gateObs : List Bool
  deriving DecidableEq

/-- Record one gate observation in front of a result's observation list. -/
def withObs (g : Bool) (r : HandleResult) : HandleResult :=
  { r with gateObs := g :: r.gateObs }

/-- The `"user"` role string. -/
def userRole : List Char := "user".data

/-- The `while True` body of `handle_response` (`voice_medassist.py`
lines 427-487). -/
def handleLoopT (s : EngineState) : List InMsg → HandleResult
  | [] =>
    if s.callActive then ⟨s, .starved, [], []⟩
    else ⟨s, .endedInactive, [], []⟩
  | e :: rest =>
    if s.callActive then
      let g := s.audio.is_speaking
      match e with
      | .audioDelta d =>
        let t := pyStrip d
        if t.isEmpty then withObs g (handleLoopT s rest)
        else
          match decodeDelta (padB64 t) with
          | some chunk =>
            withObs g (handleLoopT { s with played := s.played ++ [chunk] } rest)
          | none =>
            withObs g (handleLoopT { s with decodeErrors := s.decodeErrors + 1 } rest)
      | .textDelta _ => withObs g (handleLoopT s rest)
      | .textDone txt =>
        if txt.isEmpty then withObs g (handleLoopT s rest)
        else if allQuestionsAnswered txt then
          withObs g (handleLoopT { s with callActive := false } rest)
        else withObs g (handleLoopT s rest)
      | .itemCreated role txt =>
        if role = userRole then
          if txt.isEmpty then withObs g (handleLoopT s rest)
          else if checkGoodbye txt then
            withObs g (handleLoopT { s with callActive := false } rest)
          else withObs g (handleLoopT s rest)
        else withObs g (handleLoopT s rest)
      | .responseDone => ⟨s, .completed, rest, [g]⟩
      | .errorEv => withObs g (handleLoopT s rest)
      | .sessionCreated => withObs g (handleLoopT s rest)
      | .fault => ⟨s, .faulted, rest, [g]⟩
    else ⟨s, .endedInactive, e :: rest, []⟩

/-- The entry assignment `self.audio_processor.is_speaking = True` of
`handle_response` (and of `VoiceUI.speak`, `voice_ui.py` line 237). -/
def beginSpeaking (s : EngineState) : EngineState :=
  { s with audio := { s.audio with is_speaking := true } }

/-- `handle_response` in full: gate raised on entry, loop, `finally`
clearing the gate on every exit (normal break, `call_active` break, and
exception propagation alike); when the loop is still blocked (`starved`)
the `finally` has not run yet. -/
def handleResponseT (s : EngineState) (evs : List InMsg) : HandleResult :=
  let r := handleLoopT (beginSpeaking s) evs
  match r.outcome with
  | .starved => r
  | _ =>
    { r with state :=
        { r.state with audio := { r.state.audio with is_speaking := false } } }

/-- How the session-setup wait loop exited. -/
inductive SetupOutcome where
  | created (remaining : List InMsg)
  | errorRaised (remaining : List InMsg)
  | starved
  deriving DecidableEq

/-- The wait loop of `setup_websocket_session` (`voice_medassist.py`
lines 366-374): breaks on `session.created`, raises on `error` (which
terminates the engine), ignores everything else. -/
def setupLoop : List InMsg → SetupOutcome
  | [] => .starved
  | .sessionCreated :: rest => .created rest
  | .errorEv :: rest => .errorRaised rest
  | _ :: rest => setupLoop rest

/-- The engine as constructed (`ConversationSystem.__init__`,
`voice_medassist.py` lines 288-301): fresh `AudioProcessor()` at the
default sample rate, `call_active = True`. -/
def initEngine : EngineState :=
  { audio := AudioProcessor.init 24000
    callActive := true
    played := []
    decodeErrors := 0 }

/-! ### Helper lemmas about the VAD -/

namespace AudioProcessor

lemma process_audio_min_eq (s : AudioProcState) (f : List Int) :
    (process_audio s f).min_speech_duration = s.min_speech_duration := by
  by_cases hs : s.is_speaking = true
  · simp [process_audio, hs]
  · by_cases ha : frameAboveThreshold f = true
    · simp [process_audio, hs, ha]
    · by_cases hd : s.speech_detected = true
      · simp only [process_audio, hs, ha, hd]
        simp only [Bool.false_eq_true, if_false, if_true]
        split <;> rfl
      · simp [process_audio, hs, ha, hd]

lemma process_audio_speech_frames_le (s : AudioProcState) (f : List Int) :
    (process_audio s f).speech_frames
      ≤ s.speech_frames + (if frameAboveThreshold f then f.length else 0) := by
  by_cases hs : s.is_speaking = true
  · simp only [process_audio, hs, if_true]
    split <;> omega
  · by_cases ha : frameAboveThreshold f = true
    · simp [process_audio, hs, ha]
    · by_cases hd : s.speech_detected = true
      · simp only [process_audio, hs, ha, hd]
        simp only [Bool.false_eq_true, if_false, if_true]
        split <;> simp
      · simp [process_audio, hs, ha, hd]

lemma runVAD_min_eq (fs : List (List Int)) :
    ∀ s : AudioProcState, (runVAD s fs).min_speech_duration = s.min_speech_duration := by
  induction fs with
  | nil => intro s; rfl
  | cons f fs ih =>
    intro s
    have h1 : runVAD s (f :: fs) = runVAD (process_audio s f) fs := rfl
    rw [h1, ih, process_audio_min_eq]

lemma runVAD_speech_frames_le (fs : List (List Int)) :
    ∀ s : AudioProcState,
      (runVAD s fs).speech_frames ≤ s.speech_frames + aboveSamples fs := by
  induction fs with
  | nil => intro s; simp [runVAD, aboveSamples]
  | cons f fs ih =>
    intro s
    have h1 : runVAD s (f :: fs) = runVAD (process_audio s f) fs := rfl
    have h2 := ih (process_audio s f)
    have h3 := process_audio_speech_frames_le s f
    have h4 : aboveSamples (f :: fs)
        = (if frameAboveThreshold f then f.length else 0) + aboveSamples fs := rfl
    rw [h1, h4]
    omega

lemma aboveSamples_append (gs ts : List (List Int)) :
    aboveSamples (gs ++ ts) = aboveSamples gs + aboveSamples ts := by
  induction gs with
  | nil => simp [aboveSamples]
  | cons g gs ih => simp [aboveSamples, ih]; omega

end AudioProcessor

/-! ### Claim theorems: the VAD -/

open AudioProcessor

/-- C1: for every audio frame, calling `process_audio` while the capture
gate (`is_speaking`) is true leaves the entire VAD state unchanged —
`speech_frames`, `silence_frames`, `speech_detected` and the utterance
buffer are exactly as before the call. -/
theorem C1_gate_drops_frame (s : AudioProcState) (frame : List Int)
    (h : s.is_speaking = true) :
    process_audio s frame = s := by
  unfold process_audio
  rw [h]
  rfl

theorem C1_gate_drops_frame_witness :
    ({ AudioProcessor.init 24000 with is_speaking := true }).is_speaking = true
    ∧ process_audio { AudioProcessor.init 24000 with is_speaking := true } [5000, -5000]
        = { AudioProcessor.init 24000 with is_speaking := true } :=
  ⟨rfl, C1_gate_drops_frame { AudioProcessor.init 24000 with is_speaking := true }
    [5000, -5000] rfl⟩

/-- C3:1) for every VAD state, `should_process` is true iff
`speech_detected` holds, `speech_frames` has reached `min_speech_duration`
and `silence_frames` has reached `max_silence_duration`; 2) for any frame
sequence whose total above-threshold samples stay below
`min_speech_duration`, readiness is never reached: every prefix `gs` of
the sequence `gs ++ ts` fed from the initial state leaves
`should_process` false. -/
theorem C3_readiness (s : AudioProcState) (gs ts : List (List Int))
    (h : aboveSamples (gs ++ ts) < (AudioProcessor.init 24000).min_speech_duration) :
    (should_process s
      = (s.speech_detected
          && decide (s.speech_frames ≥ s.min_speech_duration)
          && decide (s.silence_frames ≥ s.max_silence_duration)))
    ∧ should_process (runVAD (AudioProcessor.init 24000) gs) = false := by
  refine ⟨rfl, ?_⟩
  have hmin := runVAD_min_eq gs (AudioProcessor.init 24000)
  have hsf := runVAD_speech_frames_le gs (AudioProcessor.init 24000)
  have hinit : (AudioProcessor.init 24000).speech_frames = 0 := rfl
  rw [aboveSamples_append] at h
  have hlt : (runVAD (AudioProcessor.init 24000) gs).speech_frames
      < (runVAD (AudioProcessor.init 24000) gs).min_speech_duration := by
    rw [hmin]; omega
  unfold should_process
  have hfalse : decide ((runVAD (AudioProcessor.init 24000) gs).speech_frames
      ≥ (runVAD (AudioProcessor.init 24000) gs).min_speech_duration) = false := by
    simp; omega
  rw [hfalse]
  simp

theorem C3_readiness_witness :
    aboveSamples ([[1000, 1000]] ++ [[0, 0]]) < (AudioProcessor.init 24000).min_speech_duration
    ∧ should_process (runVAD (AudioProcessor.init 24000) [[1000, 1000]]) = false :=
  ⟨by decide,
   (C3_readiness (AudioProcessor.init 24000) [[1000, 1000]] [[0, 0]] (by decide)).2⟩

/-- C4: a frame at or below the threshold fed while `speech_detected` is
true and the gate is false adds its length to `silence_frames`, and its
bytes are appended to the buffer exactly when the updated silence count is
still below `max_silence_duration`. -/
theorem C4_trailing_silence (s : AudioProcState) (frame : List Int)
    (hgate : s.is_speaking = false)
    (hsp : s.speech_detected = true)
    (hlvl : frameAboveThreshold frame = false) :
    (process_audio s frame).silence_frames = s.silence_frames + frame.length
    ∧ (process_audio s frame).buffer
        = (if s.silence_frames + frame.length < s.max_silence_duration
           then s.buffer ++ frameBytes frame else s.buffer) := by
  unfold process_audio
  rw [hgate, hlvl, hsp]
  simp only [Bool.false_eq_true, if_false, if_true]
  split <;> simp_all

theorem C4_trailing_silence_witness :
    ({ AudioProcessor.init 24000 with speech_detected := true }).is_speaking = false
    ∧ ({ AudioProcessor.init 24000 with speech_detected := true }).speech_detected = true
    ∧ frameAboveThreshold [0, 0] = false
    ∧ (process_audio { AudioProcessor.init 24000 with speech_detected := true } [0, 0]).silence_frames
        = ({ AudioProcessor.init 24000 with speech_detected := true }).silence_frames + ([0, 0] : List Int).length
    ∧ (process_audio { AudioProcessor.init 24000 with speech_detected := true } [0, 0]).buffer
        = (if ({ AudioProcessor.init 24000 with speech_detected := true }).silence_frames + ([0, 0] : List Int).length
              < ({ AudioProcessor.init 24000 with speech_detected := true }).max_silence_duration
           then ({ AudioProcessor.init 24000 with speech_detected := true }).buffer ++ frameBytes [0, 0]
           else ({ AudioProcessor.init 24000 with speech_detected := true }).buffer) :=
  ⟨rfl, rfl, by decide,
   (C4_trailing_silence { AudioProcessor.init 24000 with speech_detected := true }
     [0, 0] rfl rfl (by decide)).1,
   (C4_trailing_silence { AudioProcessor.init 24000 with speech_detected := true }
     [0, 0] rfl rfl (by decide)).2⟩

/-- C5: `reset` drains the buffer (returning its bytes) and resets
`speech_frames`, `silence_frames` and `speech_detected` to zero/false and
the buffer to empty, without altering the capture gate `is_speaking`; and
it is idempotent-safe: a second call immediately after a drain returns an
empty byte string, leaves the state unchanged, and leaves
`should_process` false. -/
theorem C5_reset_drain (s : AudioProcState) :
    (reset s).1 = s.buffer
    ∧ (reset s).2.speech_frames = 0
    ∧ (reset s).2.silence_frames = 0
    ∧ (reset s).2.speech_detected = false
    ∧ (reset s).2.buffer = []
    ∧ (reset s).2.is_speaking = s.is_speaking
    ∧ reset (reset s).2 = ([], (reset s).2)
    ∧ should_process (reset (reset s).2).2 = false := by
  cases s
  exact ⟨rfl, rfl, rfl, rfl, rfl, rfl, rfl, rfl⟩

/-! ### Claim theorem: base64 padding -/

/-- C8: the pre-decode padding step appends exactly 3, 2 or 1 `=`
characters when the delta's length mod 4 is 1, 2 or 3 respectively,
leaves a delta whose length is already a multiple of 4 unchanged, and
always produces a string whose length is a multiple of 4. -/
theorem C8_padding (cs : List Char) :
    (cs.length % 4 = 0 → padB64 cs = cs)
    ∧ (cs.length % 4 = 1 → padB64 cs = cs ++ "===".data)
    ∧ (cs.length % 4 = 2 → padB64 cs = cs ++ "==".data)
    ∧ (cs.length % 4 = 3 → padB64 cs = cs ++ "=".data)
    ∧ (padB64 cs).length % 4 = 0 := by
  have hp : ((-(cs.length : Int)) % 4).toNat = (4 - cs.length % 4) % 4 := by
    omega
  have hpad : padB64 cs =
      if (4 - cs.length % 4) % 4 ≠ 0 then
        cs ++ List.replicate ((4 - cs.length % 4) % 4) '=' else cs := by
    simp only [padB64, hp]
  have h1 : List.replicate 1 '=' = "=".data := by decide
  have h2 : List.replicate 2 '=' = "==".data := by decide
  have h3 : List.replicate 3 '=' = "===".data := by decide
  have hm : cs.length % 4 = 0 ∨ cs.length % 4 = 1 ∨ cs.length % 4 = 2
      ∨ cs.length % 4 = 3 := by omega
  rcases hm with h | h | h | h
  · have hval : padB64 cs = cs := by
      rw [hpad, show (4 - cs.length % 4) % 4 = 0 by omega]
      simp
    exact ⟨fun _ => hval, fun hx => by omega, fun hx => by omega, fun hx => by omega,
      by rw [hval]; omega⟩
  · have hval : padB64 cs = cs ++ List.replicate 3 '=' := by
      rw [hpad, show (4 - cs.length % 4) % 4 = 3 by omega]
      simp
    refine ⟨fun hx => by omega, fun _ => by rw [hval, h3], fun hx => by omega,
      fun hx => by omega, ?_⟩
    rw [hval]
    simp only [List.length_append, List.length_replicate]
    omega
  · have hval : padB64 cs = cs ++ List.replicate 2 '=' := by
      rw [hpad, show (4 - cs.length % 4) % 4 = 2 by omega]
      simp
    refine ⟨fun hx => by omega, fun hx => by omega, fun _ => by rw [hval, h2],
      fun hx => by omega, ?_⟩
    rw [hval]
    simp only [List.length_append, List.length_replicate]
    omega
  · have hval : padB64 cs = cs ++ List.replicate 1 '=' := by
      rw [hpad, show (4 - cs.length % 4) % 4 = 1 by omega]
      simp
    refine ⟨fun hx => by omega, fun hx => by omega, fun hx => by omega,
      fun _ => by rw [hval, h1], ?_⟩
    rw [hval]
    simp only [List.length_append, List.length_replicate]
    omega

theorem C8_padding_witness :
    ("ab".data.length % 4 = 2 ∧ padB64 "ab".data = "ab".data ++ "==".data)
    ∧ padB64 "abcd".data = "abcd".data :=
  ⟨⟨by decide, (C8_padding "ab".data).2.2.1 (by decide)⟩,
   (C8_padding "abcd".data).1 (by decide)⟩

/-! ### Helper lemmas about the response loop -/

lemma handleLoopT_inactive (s : EngineState) (evs : List InMsg)
    (h : s.callActive = false) :
    handleLoopT s evs = ⟨s, .endedInactive, evs, []⟩ := by
  cases evs <;> simp [handleLoopT, h]

lemma handleLoopT_audio_eq (evs : List InMsg) : ∀ s : EngineState,
    (handleLoopT s evs).state.audio = s.audio := by
  induction evs with
  | nil =>
    intro s
    unfold handleLoopT
    split <;> rfl
  | cons e rest ih =>
    intro s
    unfold handleLoopT
    split
    · cases e <;> dsimp only <;> (repeat' split) <;>
        first
        | rfl
        | exact ih _
    · rfl

lemma handleLoopT_gateObs_eq (evs : List InMsg) : ∀ (s : EngineState) (b : Bool),
    b ∈ (handleLoopT s evs).gateObs → b = s.audio.is_speaking := by
  induction evs with
  | nil =>
    intro s b
    unfold handleLoopT
    split <;> simp
  | cons e rest ih =>
    intro s b
    unfold handleLoopT
    split
    · cases e <;> dsimp only <;> (repeat' split) <;> intro hb <;>
        simp only [withObs, List.mem_cons, List.not_mem_nil, or_false] at hb <;>
        first
        | exact hb
        | ((rcases hb with h | h) <;> first | exact h | (have h2 := ih _ b h; exact h2))
    · simp

lemma handleResponseT_gateObs (s : EngineState) (evs : List InMsg) :
    (handleResponseT s evs).gateObs = (handleLoopT (beginSpeaking s) evs).gateObs := by
  unfold handleResponseT
  dsimp only
  split <;> rfl

lemma handleResponse_gate_cleared (s : EngineState) (evs : List InMsg)
    (h : (handleResponseT s evs).outcome ≠ HandleOutcome.starved) :
    (handleResponseT s evs).state.audio.is_speaking = false := by
  unfold handleResponseT at h ⊢
  dsimp only at h ⊢
  cases hout : (handleLoopT (beginSpeaking s) evs).outcome <;> simp_all

/-! ### Claim theorems: the engine -/

/-- C2 counterexample: the claim says the capture gate is false until the
first `response.audio.delta` arrives and is set true upon that delta only.
In the code the gate is raised at the start of response handling, before
any inbound event: in a cycle whose first two receipts are a text delta
and then the first audio delta, the gate is observed `true` at every
receipt, including the text delta that precedes any audio delta. -/
theorem C2_counterexample :
    (handleResponseT initEngine
      [InMsg.textDelta "x".data, InMsg.audioDelta "AAAAAAAA".data,
       InMsg.responseDone]).gateObs = [true, true, true] := by decide

/-- C2 amended: the capture gate is set true at the start of response
handling (before any inbound event is received, hence before the first
audio delta), it is observed true at every receipt during the cycle —in
particular during all the deltas— and it is back to false once the loop
exits (on `response.done` or otherwise). -/
theorem C2_amended_gate (s : EngineState) (evs : List InMsg) :
    (beginSpeaking s).audio.is_speaking = true
    ∧ (∀ b ∈ (handleResponseT s evs).gateObs, b = true)
    ∧ ((handleResponseT s evs).outcome ≠ HandleOutcome.starved →
        (handleResponseT s evs).state.audio.is_speaking = false) := by
  refine ⟨rfl, ?_, handleResponse_gate_cleared s evs⟩
  intro b hb
  rw [handleResponseT_gateObs] at hb
  exact handleLoopT_gateObs_eq evs (beginSpeaking s) b hb

theorem C2_amended_gate_witness :
    (true ∈ (handleResponseT initEngine [InMsg.responseDone]).gateObs
      ∧ (handleResponseT initEngine [InMsg.responseDone]).outcome
          ≠ HandleOutcome.starved)
    ∧ (beginSpeaking initEngine).audio.is_speaking = true
    ∧ true = true
    ∧ (handleResponseT initEngine [InMsg.responseDone]).state.audio.is_speaking
        = false :=
  ⟨⟨by decide, by decide⟩,
   (C2_amended_gate initEngine [InMsg.responseDone]).1,
   (C2_amended_gate initEngine [InMsg.responseDone]).2.1 true (by decide),
   (C2_amended_gate initEngine [InMsg.responseDone]).2.2 (by decide)⟩

/-- C6 counterexample: the claim says an inbound `error` message in any
state closes the engine.  Mid-session, `handle_response` has no branch for
the type `error`: the message is ignored, the same response cycle
continues (the following audio delta is still decoded and played), the
cycle completes on `response.done`, and the engine remains active
(`call_active` still true), so the run loop goes on sending outbound
messages. -/
theorem C6_counterexample :
    (handleResponseT initEngine
      [InMsg.errorEv, InMsg.audioDelta "AAAAAAAA".data, InMsg.responseDone]).outcome
        = HandleOutcome.completed
    ∧ (handleResponseT initEngine
        [InMsg.errorEv, InMsg.audioDelta "AAAAAAAA".data, InMsg.responseDone]).state.callActive
        = true
    ∧ (handleResponseT initEngine
        [InMsg.errorEv, InMsg.audioDelta "AAAAAAAA".data, InMsg.responseDone]).state.played
        = [[0, 0, 0]] := by decide

/-- C6 amended: during session setup an inbound `error` raises and the
conversation terminates; during mid-session response handling an inbound
`error` message matches no dispatch branch and is ignored — the loop
simply continues with the remaining events and the engine does not
transition to a closed state. -/
theorem C6_amended_error_handling (rest : List InMsg) (s : EngineState)
    (hact : s.callActive = true) :
    setupLoop (InMsg.errorEv :: rest) = SetupOutcome.errorRaised rest
    ∧ handleLoopT s (InMsg.errorEv :: rest)
        = withObs s.audio.is_speaking (handleLoopT s rest) := by
  refine ⟨rfl, ?_⟩
  simp [handleLoopT, hact]

theorem C6_amended_error_handling_witness :
    initEngine.callActive = true
    ∧ setupLoop [InMsg.errorEv, InMsg.responseDone]
        = SetupOutcome.errorRaised [InMsg.responseDone]
    ∧ handleLoopT initEngine [InMsg.errorEv, InMsg.responseDone]
        = withObs initEngine.audio.is_speaking
            (handleLoopT initEngine [InMsg.responseDone]) :=
  ⟨rfl, (C6_amended_error_handling [InMsg.responseDone] initEngine rfl).1,
   (C6_amended_error_handling [InMsg.responseDone] initEngine rfl).2⟩

/-- C7 counterexample: the claim says the run loop exits only after
`response.done` is observed, never mid-stream.  When the final assistant
text carries the sentinel phrase, `call_active` is cleared and the
response loop breaks at the top of its next iteration: here it exits with
the remaining audio delta and the `response.done` of the same response
still unconsumed — a mid-stream exit. -/
theorem C7_counterexample :
    (handleResponseT initEngine
      [InMsg.textDone "all your questions are answered".data,
       InMsg.audioDelta "AAAAAAAA".data, InMsg.responseDone]).outcome
        = HandleOutcome.endedInactive
    ∧ (handleResponseT initEngine
        [InMsg.textDone "all your questions are answered".data,
         InMsg.audioDelta "AAAAAAAA".data, InMsg.responseDone]).remaining
        = [InMsg.audioDelta "AAAAAAAA".data, InMsg.responseDone] := by decide

/-- C7 amended: when end-of-call is detected — the sentinel phrase in a
nonempty final assistant text, or a goodbye phrase in a nonempty user
transcript item — the response loop clears `call_active` and exits at the
top of the next iteration, before receiving any further event of the
response — possibly before `response.done` — and the run loop then exits
because `call_active` is false; the exit can therefore happen mid-stream. -/
theorem C7_amended_midstream_exit (s : EngineState) (txt : List Char)
    (rest : List InMsg) (hact : s.callActive = true) (hne : txt.isEmpty = false) :
    (allQuestionsAnswered txt = true →
      handleLoopT s (InMsg.textDone txt :: rest)
        = ⟨{ s with callActive := false }, HandleOutcome.endedInactive, rest,
           [s.audio.is_speaking]⟩)
    ∧ (checkGoodbye txt = true →
      handleLoopT s (InMsg.itemCreated userRole txt :: rest)
        = ⟨{ s with callActive := false }, HandleOutcome.endedInactive, rest,
           [s.audio.is_speaking]⟩) := by
  have h2 : ({ s with callActive := false } : EngineState).callActive = false := rfl
  constructor
  · intro hq
    simp only [handleLoopT, hact, hne, hq, if_true]
    rw [handleLoopT_inactive _ rest h2]
    simp [withObs]
  · intro hgb
    simp only [handleLoopT, hact, hne, hgb, if_true]
    rw [handleLoopT_inactive _ rest h2]
    simp [withObs]

theorem C7_amended_midstream_exit_witness :
    (initEngine.callActive = true
      ∧ "all your questions are answered".data.isEmpty = false
      ∧ allQuestionsAnswered "all your questions are answered".data = true
      ∧ handleLoopT initEngine
          [InMsg.textDone "all your questions are answered".data, InMsg.responseDone]
        = ⟨{ initEngine with callActive := false }, HandleOutcome.endedInactive,
           [InMsg.responseDone], [initEngine.audio.is_speaking]⟩)
    ∧ ("goodbye doctor".data.isEmpty = false
      ∧ checkGoodbye "goodbye doctor".data = true
      ∧ handleLoopT initEngine
          [InMsg.itemCreated userRole "goodbye doctor".data, InMsg.responseDone]
        = ⟨{ initEngine with callActive := false }, HandleOutcome.endedInactive,
           [InMsg.responseDone], [initEngine.audio.is_speaking]⟩) :=
  ⟨⟨rfl, by decide, by decide,
    (C7_amended_midstream_exit initEngine "all your questions are answered".data
      [InMsg.responseDone] rfl (by decide)).1 (by decide)⟩,
   ⟨by decide, by decide,
    (C7_amended_midstream_exit initEngine "goodbye doctor".data
      [InMsg.responseDone] rfl (by decide)).2 (by decide)⟩⟩

/-- C9: an audio delta whose (stripped, padded) payload fails to decode is
only counted into the error log, and the loop continues with the next
event of the same response from an otherwise unchanged state: nothing is
played for the bad delta, the cycle is not aborted, and no error
propagates. -/
theorem C9_decode_failure_skipped (s : EngineState) (d : List Char)
    (rest : List InMsg) (hact : s.callActive = true)
    (hne : (pyStrip d).isEmpty = false)
    (hfail : decodeDelta (padB64 (pyStrip d)) = none) :
    handleLoopT s (InMsg.audioDelta d :: rest)
      = withObs s.audio.is_speaking
          (handleLoopT { s with decodeErrors := s.decodeErrors + 1 } rest) := by
  simp only [handleLoopT, hact, hne, hfail, if_true]
  simp

theorem C9_decode_failure_skipped_witness :
    initEngine.callActive = true
    ∧ (pyStrip "a".data).isEmpty = false
    ∧ decodeDelta (padB64 (pyStrip "a".data)) = none
    ∧ handleLoopT initEngine [InMsg.audioDelta "a".data, InMsg.responseDone]
        = withObs initEngine.audio.is_speaking
            (handleLoopT { initEngine with decodeErrors := initEngine.decodeErrors + 1 }
              [InMsg.responseDone]) :=
  ⟨rfl, by decide, by decide,
   C9_decode_failure_skipped initEngine "a".data [InMsg.responseDone]
     rfl (by decide) (by decide)⟩

/-- C10: on every exit from the response-handling loop — the normal break
on `response.done` (`completed`), the end-of-call break (`endedInactive`),
and an exception propagating out of the loop (`faulted`) alike — the
`finally` clause restores the capture gate to false; only a loop that has
not exited (`starved`) keeps the gate up. -/
theorem C10_gate_restored (s : EngineState) (evs : List InMsg)
    (h : (handleResponseT s evs).outcome ≠ HandleOutcome.starved) :
    (handleResponseT s evs).state.audio.is_speaking = false :=
  handleResponse_gate_cleared s evs h

theorem C10_gate_restored_witness :
    (handleResponseT initEngine [InMsg.fault]).outcome ≠ HandleOutcome.starved
    ∧ (handleResponseT initEngine [InMsg.fault]).state.audio.is_speaking = false :=
  ⟨by decide, C10_gate_restored initEngine [InMsg.fault] (by decide)⟩
